import Mathlib

/-!
Shallow embedding of the request-handler layer of the serverless to-do
application (`sam-backend-todo-app/src/todos.js`) together with the store
semantics it runs against, and proofs of the specified properties of the
create / list / update / delete handlers.

Modelling conventions:

* JavaScript runtime values occurring in request bodies and stored items are
  modelled by `JSValue` (JSON values: null, booleans, numbers, strings,
  arrays, objects).  JavaScript `undefined` — the result of reading an absent
  object property — is modelled by `Option JSValue` being `none`.
* `JSON.parse(event.body)` is modelled abstractly by `BodyInput`/`parseBody`:
  an absent body or a non-JSON body makes the parse throw a `SyntaxError`
  (in JavaScript `JSON.parse(undefined)` stringifies its argument and fails),
  while a well-formed JSON text yields the parsed `JSValue` (an HTTP body
  that is the four characters `null` yields `JSValue.null`, on which the
  subsequent destructuring `const { title, description } = requestBody`
  throws a `TypeError`).
* The DynamoDB table is modelled by `Store`, an association list from the
  composite key `(userId, todoId)` to an attribute map.  `PutCommand`,
  `UpdateCommand` (SET-only expression, `ReturnValues: ALL_NEW`) and
  `DeleteCommand` (`ReturnValues: ALL_OLD`) follow the documented AWS
  semantics: in particular `UpdateItem` *edits an existing item or adds a
  new item to the table if none exists at the key* (upsert, absent a
  `ConditionExpression`), and with `ALL_NEW` it returns all attributes of
  the item as it appears after the update, so `Attributes` is present on
  every successful call.
* Non-determinism of the environment (the generated uuid, the current
  timestamp `new Date().toISOString()`, and whether a store call throws)
  is passed to each handler as an explicit argument.
* Each handler returns a `HandlerResult`: the HTTP response produced by
  `generateResponse`, the store state after the call, and the number of
  store commands that were issued (`storeOps`), so that "no store operation
  was issued" is expressible.
-/

namespace TodoApp

/-- JSON/JavaScript runtime values, as produced by `JSON.parse` and stored in
DynamoDB attribute maps. -/
inductive JSValue where
  | null
  | bool (b : Bool)
  | num (n : Int)
  | str (s : String)
  | arr (elems : List JSValue)
  | obj (fields : List (String × JSValue))

/-- JavaScript truthiness of a value: `null`, `false`, `0` and the empty
string are falsy; every other value (including empty arrays and objects)
is truthy. -/
def jsTruthy : JSValue → Bool
  | .null => false
  | .bool b => b
  | .num n => decide (n ≠ 0)
  | .str s => decide (s ≠ "")
  | .arr _ => true
  | .obj _ => true

/-- Test for `typeof v === "string"`. -/
def JSValue.isString : JSValue → Bool
  | .str _ => true
  | _ => false

/-- Whitespace class trimmed by `String.prototype.trim`: spaces, tabs and
line terminators (restricted to the ASCII range, which covers every string
the handlers compare against). -/
def jsWhitespace (c : Char) : Bool :=
  decide (c = ' ') || decide (c = '\t') || decide (c = '\n') || decide (c = '\r')

/-- Model of `s.trim()`: removes leading and trailing whitespace. -/
def jsTrim (s : String) : String :=
  ⟨(((s.data.dropWhile jsWhitespace).reverse.dropWhile jsWhitespace).reverse)⟩

/-- Property read `v[k]` on a parsed JSON value: on an object, the value of
the last binding of the key (JSON semantics: a duplicated key keeps its last
value); on any other value, `undefined` (`none`).  Reading a property of
`null` throws instead; callers branch on `.null` before using this. -/
def lookupField (v : JSValue) (k : String) : Option JSValue :=
  match v with
  | .obj fields => ((fields.reverse).find? (fun p => decide (p.1 = k))).map (·.2)
  | _ => none

/-- JavaScript exception as observed by a `catch` block: its `name` and its
`message`. -/
structure JSError where
  name : String
  message : String

/-- Test whether the second character list occurs at the head of the
first. -/
def headMatches : List Char → List Char → Bool
  | _, [] => true
  | [], _ :: _ => false
  | c :: cs, d :: ds => decide (c = d) && headMatches cs ds

/-- Test whether the second character list occurs contiguously anywhere in
the first. -/
def containsSeq : List Char → List Char → Bool
  | [], sub => sub.isEmpty
  | c :: cs, sub => headMatches (c :: cs) sub || containsSeq cs sub

/-- Model of `s.includes(sub)`. -/
def strIncludes (s sub : String) : Bool := containsSeq s.data sub.data

/-- Raw request body as handed to a handler: absent (`event.body` is
`undefined`), present but not valid JSON (parse throws a `SyntaxError`
carrying some message), or a well-formed JSON text with its parsed value. -/
inductive BodyInput where
  | absent
  | invalid (msg : String)
  | val (v : JSValue)

/-- Model of `JSON.parse(event.body)`. -/
def parseBody : BodyInput → Except JSError JSValue
  | .absent => .error ⟨"SyntaxError", "Unexpected token u in JSON at position 0"⟩
  | .invalid m => .error ⟨"SyntaxError", m⟩
  | .val v => .ok v

/-- DynamoDB item: a finite attribute map, attribute name to value. -/
abbrev AttrMap := List (String × JSValue)

/-- Composite primary key of the todos table: `(userId, todoId)`. -/
abbrev StoreKey := String × String

/-- State of the DynamoDB todos table: association list from key to item.
Keys are unique in any state reachable by the modelled commands. -/
abbrev Store := List (StoreKey × AttrMap)

/-- Point read at a key. -/
def storeLookup : Store → StoreKey → Option AttrMap
  | [], _ => none
  | (k', it) :: rest, k => if k' = k then some it else storeLookup rest k

/-- Write an item at a key, replacing the item previously there if any. -/
def storeInsert : Store → StoreKey → AttrMap → Store
  | [], k, it => [(k, it)]
  | (k', it') :: rest, k, it =>
    if k' = k then (k, it) :: rest else (k', it') :: storeInsert rest k it

/-- Remove every binding of a key. -/
def storeErase : Store → StoreKey → Store
  | [], _ => []
  | (k', it') :: rest, k =>
    if k' = k then storeErase rest k else (k', it') :: storeErase rest k

/-- Overwrite (or add) one attribute of an item, as a DynamoDB `SET` action
does. -/
def setAttr : AttrMap → String → JSValue → AttrMap
  | [], k, v => [(k, v)]
  | (k', v') :: rest, k, v =>
    if k' = k then (k, v) :: rest else (k', v') :: setAttr rest k v

/-- Apply a list of `SET name = value` actions to an item in order. -/
def applySets (it : AttrMap) (sets : AttrMap) : AttrMap :=
  sets.foldl (fun m p => setAttr m p.1 p.2) it

/-- Semantics of `UpdateCommand` with a SET-only `UpdateExpression` and
`ReturnValues: ALL_NEW`, per the AWS documentation: without a
`ConditionExpression` the operation edits the item at the key, or adds a
new item (holding just the key attributes plus the SET attributes) if none
exists; `ALL_NEW` returns all attributes of the item as it appears after
the update, so the returned `Attributes` field is always present. -/
def applyUpdate (store : Store) (k : StoreKey) (sets : AttrMap) :
    Option AttrMap × Store :=
  let base : AttrMap :=
    match storeLookup store k with
    | some it => it
    | none => [("userId", JSValue.str k.1), ("todoId", JSValue.str k.2)]
  let newItem := applySets base sets
  (some newItem, storeInsert store k newItem)

/-- Semantics of `DeleteCommand` with `ReturnValues: ALL_OLD`: deletes the
item at the key if present and returns it; if no item matches, the call
succeeds, returns no `Attributes`, and the table is unchanged. -/
def applyDelete (store : Store) (k : StoreKey) : Option AttrMap × Store :=
  match storeLookup store k with
  | some it => (some it, storeErase store k)
  | none => (none, store)

/-- Fixed response headers attached by `generateResponse` (CORS support). -/
def corsHeaders : List (String × String) :=
  [("Content-Type", "application/json"),
   ("Access-Control-Allow-Origin", "*"),
   ("Access-Control-Allow-Methods", "GET,POST,PUT,DELETE,OPTIONS"),
   ("Access-Control-Allow-Headers",
    "Content-Type,X-Amz-Date,Authorization,X-Api-Key,X-Amz-Security-Token")]

/-- HTTP response produced by a handler: status code, headers, and the body
object (serialised with `JSON.stringify` at the transport boundary). -/
structure Response where
  statusCode : Nat
  headers : List (String × String)
  body : JSValue

/-- Model of the `generateResponse` helper of `todos.js`. -/
def generateResponse (statusCode : Nat) (body : JSValue) : Response :=
  ⟨statusCode, corsHeaders, body⟩

/-- Body object `{ message: m }`. -/
def msgBody (m : String) : JSValue := .obj [("message", .str m)]

/-- Result of a handler invocation: the response, the store state after the
invocation, and how many store commands were issued during it. -/
structure HandlerResult where
  response : Response
  store : Store
  storeOps : Nat

/-- Body of the 401 response shared by all four handlers. -/
def unauthorizedBody : JSValue :=
  msgBody "Unauthorized: User ID not found in token."

/-- Generic failure body of `createTodoHandler`. -/
def createFailBody : JSValue :=
  msgBody "Failed to create To-Do item. Please try again later."

/-- Generic failure body of `getTodosHandler`. -/
def listFailBody : JSValue :=
  msgBody "Failed to retrieve To-Do items. Please try again later."

/-- Generic failure body of `updateTodoHandler`. -/
def updateFailBody : JSValue :=
  msgBody "Failed to update To-Do item. Please try again later."

/-- Generic failure body of `deleteTodoHandler`. -/
def deleteFailBody : JSValue :=
  msgBody "Failed to delete To-Do item. Please try again later."

/-- Validation `!title || typeof title !== "string" || title.trim() === ""`
of `createTodoHandler` (line 122): absent, falsy, non-string, and
whitespace-only titles are all rejected. -/
def createTitleInvalid : Option JSValue → Bool
  | some (.str s) => decide (s = "") || decide (jsTrim s = "")
  | _ => true

/-- Validation `description && typeof description !== "string"` of
`createTodoHandler` (line 125): only a truthy non-string is rejected; a
falsy value of any type passes. -/
def createDescInvalid : Option JSValue → Bool
  | none => false
  | some v => jsTruthy v && !v.isString

/-- Model of `exports.createTodoHandler`.  `owner` is
`event.requestContext?.authorizer?.claims?.sub` (`none` when any link of the
optional chain is absent); `freshId` the uuid generated for the item; `now`
the `new Date().toISOString()` timestamp; `putErr` the error thrown by the
`PutCommand` send, if any. -/
def createTodoHandler (owner : Option String) (body : BodyInput)
    (freshId now : String) (putErr : Option JSError) (store : Store) :
    HandlerResult :=
  match owner with
  | none => ⟨generateResponse 401 unauthorizedBody, store, 0⟩
  | some u =>
    if u = "" then ⟨generateResponse 401 unauthorizedBody, store, 0⟩
    else
      match parseBody body with
      | .error _e => ⟨generateResponse 500 createFailBody, store, 0⟩
      | .ok rb =>
        match rb with
        | .null =>
          -- destructuring `const { title, description } = requestBody`
          -- throws a TypeError on null, landing in the catch block
          ⟨generateResponse 500 createFailBody, store, 0⟩
        | rb =>
          let title := lookupField rb "title"
          let description := lookupField rb "description"
          if createTitleInvalid title then
            ⟨generateResponse 400
              (msgBody "Title is required and must be a non-empty string."),
             store, 0⟩
          else if createDescInvalid description then
            ⟨generateResponse 400 (msgBody "Description must be a string."),
             store, 0⟩
          else
            let titleVal := title.getD (.str "")
            -- `description || ""`
            let descVal : JSValue :=
              match description with
              | some v => if jsTruthy v then v else .str ""
              | none => .str ""
            let item : AttrMap :=
              [("userId", .str u), ("todoId", .str freshId),
               ("title", titleVal), ("description", descVal),
               ("status", .str "pending"), ("createdAt", .str now),
               ("updatedAt", .str now)]
            match putErr with
            | some _e => ⟨generateResponse 500 createFailBody, store, 1⟩
            | none =>
              ⟨generateResponse 201
                (.obj [("message", .str "To-Do item created successfully."),
                       ("todo", .obj item)]),
               storeInsert store (u, freshId) item, 1⟩

/-- Model of `exports.getTodosHandler`: queries all items whose partition key
equals the caller, in store order. -/
def getTodosHandler (owner : Option String) (qErr : Option JSError)
    (store : Store) : HandlerResult :=
  match owner with
  | none => ⟨generateResponse 401 unauthorizedBody, store, 0⟩
  | some u =>
    if u = "" then ⟨generateResponse 401 unauthorizedBody, store, 0⟩
    else
      match qErr with
      | some _e => ⟨generateResponse 500 listFailBody, store, 1⟩
      | none =>
        let todos := (store.filter (fun p => decide (p.1.1 = u))).map
          (fun p => JSValue.obj p.2)
        ⟨generateResponse 200 (.obj [("todos", .arr todos)]), store, 1⟩

/-- Substring that `updateTodoHandler` looks for in a caught error
message. -/
def keyMismatchNeedle : String :=
  "The provided key element does not match the schema"

/-- Condition under which the catch block of `updateTodoHandler` converts a
store error into a 400: `error.name === "ValidationException"` and the
message contains the key-schema-mismatch text. -/
def isKeyMismatch (e : JSError) : Bool :=
  decide (e.name = "ValidationException") && strIncludes e.message keyMismatchNeedle

/-- Model of the catch block of `updateTodoHandler` (lines 287-293). -/
def updateCatch (e : JSError) : Response :=
  if isKeyMismatch e then
    generateResponse 400 (msgBody "Invalid To-Do ID or data format.")
  else generateResponse 500 updateFailBody

/-- Validation of a `title` field in `updateTodoHandler` (line 237):
checked only when the field is present; must be a string with non-blank
trim. -/
def updateTitleInvalid : Option JSValue → Bool
  | none => false
  | some (.str s) => decide (jsTrim s = "")
  | some _ => true

/-- Validation of a `description` field in `updateTodoHandler` (line 245):
checked only when present; must be a string (empty allowed). -/
def updateDescInvalid : Option JSValue → Bool
  | none => false
  | some (.str _) => false
  | some _ => true

/-- Validation of a `status` field in `updateTodoHandler` (line 250):
checked only when present; must be exactly the string `pending` or the
string `completed`. -/
def updateStatusInvalid : Option JSValue → Bool
  | none => false
  | some (.str "pending") => false
  | some (.str "completed") => false
  | some _ => true

/-- SET actions accumulated by `updateTodoHandler` for a triple of possibly
present fields, in push order, with `updatedAt` appended unconditionally
(line 259). -/
def updateSets (title description status : Option JSValue) (now : String) :
    AttrMap :=
  (match title with | some v => [("title", v)] | none => []) ++
  (match description with | some v => [("description", v)] | none => []) ++
  (match status with | some v => [("status", v)] | none => []) ++
  [("updatedAt", .str now)]

/-- Store-call segment of `updateTodoHandler` (lines 280-293): sends the
`UpdateCommand` and post-processes its outcome through the 404 check and
the catch block. -/
def updateStorePhase (k : StoreKey) (sets : AttrMap) (updErr : Option JSError)
    (store : Store) : HandlerResult :=
  match updErr with
  | some e => ⟨updateCatch e, store, 1⟩
  | none =>
    let r := applyUpdate store k sets
    match r.1 with
    | none =>
      ⟨generateResponse 404
        (msgBody "To-Do item not found or unauthorized to update."),
       r.2, 1⟩
    | some it =>
      ⟨generateResponse 200
        (.obj [("message", .str "To-Do item updated successfully."),
               ("todo", .obj it)]),
       r.2, 1⟩

/-- Model of `exports.updateTodoHandler`.  `pathParams` is
`event.pathParameters` (`none` when the object itself is absent, in which
case reading `.id` throws a TypeError into the catch block); the inner
option is the `id` member. -/
def updateTodoHandler (owner : Option String)
    (pathParams : Option (Option String)) (body : BodyInput) (now : String)
    (updErr : Option JSError) (store : Store) : HandlerResult :=
  match owner with
  | none => ⟨generateResponse 401 unauthorizedBody, store, 0⟩
  | some u =>
    if u = "" then ⟨generateResponse 401 unauthorizedBody, store, 0⟩
    else
      match pathParams with
      | none =>
        ⟨updateCatch ⟨"TypeError",
          "Cannot read properties of undefined (reading id)"⟩, store, 0⟩
      | some idOpt =>
        let todoId := idOpt.getD ""
        if todoId = "" then
          ⟨generateResponse 400 (msgBody "To-Do ID is required."), store, 0⟩
        else
          match parseBody body with
          | .error e => ⟨updateCatch e, store, 0⟩
          | .ok rb =>
            match rb with
            | .null =>
              ⟨updateCatch ⟨"TypeError",
                "Cannot destructure property title of null"⟩, store, 0⟩
            | rb =>
              let title := lookupField rb "title"
              let description := lookupField rb "description"
              let status := lookupField rb "status"
              if updateTitleInvalid title then
                ⟨generateResponse 400
                  (msgBody "Title must be a non-empty string."), store, 0⟩
              else if updateDescInvalid description then
                ⟨generateResponse 400 (msgBody "Description must be a string."),
                 store, 0⟩
              else if updateStatusInvalid status then
                ⟨generateResponse 400
                  (msgBody "Status must be \x27pending\x27 or \x27completed\x27."),
                 store, 0⟩
              else
                let sets := updateSets title description status now
                -- the no-valid-fields guard of line 262; `updatedAt` has
                -- already been pushed, so the list is never empty
                if sets.length = 0 then
                  ⟨generateResponse 400
                    (msgBody "No valid fields provided for update."), store, 0⟩
                else updateStorePhase (u, todoId) sets updErr store

/-- Model of `exports.deleteTodoHandler`. -/
def deleteTodoHandler (owner : Option String)
    (pathParams : Option (Option String)) (delErr : Option JSError)
    (store : Store) : HandlerResult :=
  match owner with
  | none => ⟨generateResponse 401 unauthorizedBody, store, 0⟩
  | some u =>
    if u = "" then ⟨generateResponse 401 unauthorizedBody, store, 0⟩
    else
      match pathParams with
      | none =>
        -- reading `.id` of an absent pathParameters object throws; the
        -- delete catch block returns the generic 500 unconditionally
        ⟨generateResponse 500 deleteFailBody, store, 0⟩
      | some idOpt =>
        let todoId := idOpt.getD ""
        if todoId = "" then
          ⟨generateResponse 400 (msgBody "To-Do ID is required."), store, 0⟩
        else
          match delErr with
          | some _e => ⟨generateResponse 500 deleteFailBody, store, 1⟩
          | none =>
            let r := applyDelete store (u, todoId)
            match r.1 with
            | none =>
              ⟨generateResponse 404
                (msgBody "To-Do item not found or unauthorized to delete."),
               r.2, 1⟩
            | some _old =>
              ⟨generateResponse 200
                (msgBody "To-Do item deleted successfully."), r.2, 1⟩

/-- Predicate for a request body that does not supply a JSON object to
destructure: the body is absent, fails to parse, or parses to `null` (on
which the destructuring itself throws). -/
def badBody (b : BodyInput) : Prop :=
  b = .absent ∨ (∃ m, b = .invalid m) ∨ b = .val .null

/-- Item written by a successful create: all seven attributes, with `status`
pending and `createdAt` equal to `updatedAt`. -/
def createdItem (u freshId title desc now : String) : AttrMap :=
  [("userId", .str u), ("todoId", .str freshId), ("title", .str title),
   ("description", .str desc), ("status", .str "pending"),
   ("createdAt", .str now), ("updatedAt", .str now)]

theorem storeLookup_storeErase (s : Store) (k : StoreKey) :
    storeLookup (storeErase s k) k = none := by
  induction s with
  | nil => rfl
  | cons p rest ih =>
    obtain ⟨k', it'⟩ := p
    by_cases h : k' = k
    · simp [storeErase, h, ih]
    · simp [storeErase, storeLookup, h, ih]

/-- C1: at an update request with a present owner and id whose body holds only
the unrecognized field `foo`, the handler does not return the "no valid
fields" 400: the `updatedAt` clause is pushed before the emptiness guard, so
the guard never fires, a store operation is issued, and (per the store's
upsert semantics) the call returns 200 and writes a record. -/
theorem c1_unrecognized_fields_not_rejected :
    (updateTodoHandler (some "user-1") (some (some "todo-1"))
      (.val (.obj [("foo", .num 1)])) "T1" none []).response.statusCode = 200 ∧
    (updateTodoHandler (some "user-1") (some (some "todo-1"))
      (.val (.obj [("foo", .num 1)])) "T1" none []).storeOps = 1 ∧
    (updateTodoHandler (some "user-1") (some (some "todo-1"))
      (.val (.obj [("foo", .num 1)])) "T1" none []).store =
      [(("user-1", "todo-1"),
        [("userId", .str "user-1"), ("todoId", .str "todo-1"),
         ("updatedAt", .str "T1")])] := by
  refine ⟨rfl, rfl, rfl⟩

/-- C2: at an update request keyed by an owner and id with no record in the
store, the handler does not return 404: the `UpdateCommand` carries no
condition, so the store upserts a record at the key and `ALL_NEW` makes the
404 guard unreachable; the handler answers 200 and the store now holds a
new record at `(owner, id)`. -/
theorem c2_update_missing_record_upserts :
    updateTodoHandler (some "user-1") (some (some "todo-9"))
      (.val (.obj [("title", .str "x")])) "T1" none [] =
    ⟨generateResponse 200
       (.obj [("message", .str "To-Do item updated successfully."),
              ("todo", .obj [("userId", .str "user-1"),
                             ("todoId", .str "todo-9"),
                             ("title", .str "x"), ("updatedAt", .str "T1")])]),
     [(("user-1", "todo-9"),
       [("userId", .str "user-1"), ("todoId", .str "todo-9"),
        ("title", .str "x"), ("updatedAt", .str "T1")])], 1⟩ := rfl

/-- C3: with an item owned by `owner-a` at id `todo-x`, an update request for
path id `todo-x` claiming owner `owner-b` returns 200 (not 404): the
unconditional update upserts a fresh record keyed `(owner-b, todo-x)`.
Owner-a's item is left unchanged, but the claimed 404 does not hold for the
update handler. -/
theorem c3_cross_owner_update_returns_200 :
    (updateTodoHandler (some "owner-b") (some (some "todo-x"))
      (.val (.obj [("title", .str "hijack")])) "T1" none
      [(("owner-a", "todo-x"),
        [("userId", .str "owner-a"), ("todoId", .str "todo-x"),
         ("title", .str "secret")])]).response.statusCode = 200 ∧
    storeLookup (updateTodoHandler (some "owner-b") (some (some "todo-x"))
      (.val (.obj [("title", .str "hijack")])) "T1" none
      [(("owner-a", "todo-x"),
        [("userId", .str "owner-a"), ("todoId", .str "todo-x"),
         ("title", .str "secret")])]).store ("owner-a", "todo-x") =
      some [("userId", .str "owner-a"), ("todoId", .str "todo-x"),
            ("title", .str "secret")] ∧
    storeLookup (updateTodoHandler (some "owner-b") (some (some "todo-x"))
      (.val (.obj [("title", .str "hijack")])) "T1" none
      [(("owner-a", "todo-x"),
        [("userId", .str "owner-a"), ("todoId", .str "todo-x"),
         ("title", .str "secret")])]).store ("owner-b", "todo-x") =
      some [("userId", .str "owner-b"), ("todoId", .str "todo-x"),
            ("title", .str "hijack"), ("updatedAt", .str "T1")] := by
  refine ⟨rfl, rfl, rfl⟩

/-- C9: a request to any of the four handlers whose verified subject claim is
absent or the empty string is answered 401 with the shared unauthorized
body, the store is untouched, and no store operation is issued. -/
theorem c9_unauthenticated (owner : Option String) (body : BodyInput)
    (pathParams : Option (Option String)) (freshId now : String)
    (e1 e2 e3 e4 : Option JSError) (store : Store)
    (h : owner = none ∨ owner = some "") :
    createTodoHandler owner body freshId now e1 store =
      ⟨generateResponse 401 unauthorizedBody, store, 0⟩ ∧
    getTodosHandler owner e2 store =
      ⟨generateResponse 401 unauthorizedBody, store, 0⟩ ∧
    updateTodoHandler owner pathParams body now e3 store =
      ⟨generateResponse 401 unauthorizedBody, store, 0⟩ ∧
    deleteTodoHandler owner pathParams e4 store =
      ⟨generateResponse 401 unauthorizedBody, store, 0⟩ := by
  rcases h with h | h <;> subst h <;> exact ⟨rfl, rfl, rfl, rfl⟩

theorem c9_unauthenticated_witness :
    createTodoHandler none .absent "id-1" "T0" none [] =
      ⟨generateResponse 401 unauthorizedBody, [], 0⟩ ∧
    getTodosHandler none none [] =
      ⟨generateResponse 401 unauthorizedBody, [], 0⟩ ∧
    updateTodoHandler none none .absent "T0" none [] =
      ⟨generateResponse 401 unauthorizedBody, [], 0⟩ ∧
    deleteTodoHandler none none none [] =
      ⟨generateResponse 401 unauthorizedBody, [], 0⟩ :=
  c9_unauthenticated none .absent none "id-1" "T0" none none none none []
    (Or.inl rfl)

/-- C8: with a present owner and id, deleting at a key holding no record
answers 404 (so neither 200 nor 500) and leaves the store unchanged;
moreover after any delete invocation — in particular a successful one — no
record remains at the key, so deleting the same (owner, id) again falls
under the first part and answers 404. -/
theorem c8_delete_absent_key_404 (u i : String) (store store₀ : Store)
    (hu : u ≠ "") (hi : i ≠ "")
    (habsent : storeLookup store (u, i) = none) :
    deleteTodoHandler (some u) (some (some i)) none store =
      ⟨generateResponse 404
         (msgBody "To-Do item not found or unauthorized to delete."),
       store, 1⟩ ∧
    storeLookup
      ((deleteTodoHandler (some u) (some (some i)) none store₀).store)
      (u, i) = none := by
  constructor
  · simp [deleteTodoHandler, hu, hi, applyDelete, habsent]
  · rcases h0 : storeLookup store₀ (u, i) with _ | it <;>
      simp [deleteTodoHandler, hu, hi, applyDelete, h0, storeLookup_storeErase]

theorem c8_delete_absent_key_404_witness :
    deleteTodoHandler (some "user-1") (some (some "todo-1")) none [] =
      ⟨generateResponse 404
         (msgBody "To-Do item not found or unauthorized to delete."),
       [], 1⟩ ∧
    storeLookup
      ((deleteTodoHandler (some "user-1") (some (some "todo-1")) none
        [(("user-1", "todo-1"), [("title", JSValue.str "x")])]).store)
      ("user-1", "todo-1") = none :=
  c8_delete_absent_key_404 "user-1" "todo-1" []
    [(("user-1", "todo-1"), [("title", JSValue.str "x")])]
    (by decide) (by decide) rfl

/-- C6 counterexample: when the path-parameters object itself is absent, the
update and delete handlers answer 500 (reading `.id` throws a TypeError
that lands in the catch block), not the 400 the claim states. -/
theorem c6_counterexample_absent_path_object :
    (updateTodoHandler (some "user-1") none
      (.val (.obj [("title", .str "T")])) "T1" none []).response.statusCode
      = 500 ∧
    (deleteTodoHandler (some "user-1") none none []).response.statusCode
      = 500 := ⟨rfl, rfl⟩

/-- C6 (amended): with a present owner, when the path-parameters object is
present but carries no id (the member is absent or the empty string), update
and delete answer 400 "To-Do ID is required." and issue no store operation;
when the path-parameters object itself is absent, both handlers answer the
generic 500 instead, still issuing no store operation. -/
theorem c6_missing_id_rejected (u now : String) (idOpt : Option String)
    (body : BodyInput) (updErr delErr : Option JSError) (store : Store)
    (hu : u ≠ "") (hid : idOpt = none ∨ idOpt = some "") :
    updateTodoHandler (some u) (some idOpt) body now updErr store =
      ⟨generateResponse 400 (msgBody "To-Do ID is required."), store, 0⟩ ∧
    deleteTodoHandler (some u) (some idOpt) delErr store =
      ⟨generateResponse 400 (msgBody "To-Do ID is required."), store, 0⟩ ∧
    updateTodoHandler (some u) none body now updErr store =
      ⟨generateResponse 500 updateFailBody, store, 0⟩ ∧
    deleteTodoHandler (some u) none delErr store =
      ⟨generateResponse 500 deleteFailBody, store, 0⟩ := by
  have hcatch : updateCatch ⟨"TypeError",
      "Cannot read properties of undefined (reading id)"⟩ =
      generateResponse 500 updateFailBody := rfl
  rcases hid with h | h <;> subst h <;>
    exact ⟨by simp [updateTodoHandler, hu],
           by simp [deleteTodoHandler, hu],
           by simp [updateTodoHandler, hu, hcatch],
           by simp [deleteTodoHandler, hu]⟩

theorem c6_missing_id_rejected_witness :
    updateTodoHandler (some "user-1") (some none) .absent "T1" none [] =
      ⟨generateResponse 400 (msgBody "To-Do ID is required."), [], 0⟩ ∧
    deleteTodoHandler (some "user-1") (some none) none [] =
      ⟨generateResponse 400 (msgBody "To-Do ID is required."), [], 0⟩ ∧
    updateTodoHandler (some "user-1") none .absent "T1" none [] =
      ⟨generateResponse 500 updateFailBody, [], 0⟩ ∧
    deleteTodoHandler (some "user-1") none none [] =
      ⟨generateResponse 500 deleteFailBody, [], 0⟩ :=
  c6_missing_id_rejected "user-1" "T1" none .absent none none []
    (by decide) (Or.inl rfl)

/-- C10: with a present owner (and, for update, a present id), a body that is
absent, fails to parse, or parses to `null` makes the create and update
handlers answer their fixed generic 500 failure — not 400 — with the store
untouched and no store operation issued. -/
theorem c10_malformed_body_500 (u i freshId now : String) (b : BodyInput)
    (e1 e3 : Option JSError) (store : Store)
    (hu : u ≠ "") (hi : i ≠ "") (hb : badBody b) :
    createTodoHandler (some u) b freshId now e1 store =
      ⟨generateResponse 500 createFailBody, store, 0⟩ ∧
    updateTodoHandler (some u) (some (some i)) b now e3 store =
      ⟨generateResponse 500 updateFailBody, store, 0⟩ := by
  have hkm : ∀ m : String, isKeyMismatch ⟨"SyntaxError", m⟩ = false :=
    fun m => rfl
  have hkm2 : isKeyMismatch
      ⟨"TypeError", "Cannot destructure property title of null"⟩ = false := rfl
  rcases hb with h | ⟨m, h⟩ | h <;> subst h <;>
    exact ⟨by simp [createTodoHandler, parseBody, hu],
           by simp [updateTodoHandler, parseBody, hu, hi, updateCatch,
             hkm, hkm2]⟩

theorem c10_malformed_body_500_witness :
    createTodoHandler (some "user-1") .absent "id-1" "T1" none [] =
      ⟨generateResponse 500 createFailBody, [], 0⟩ ∧
    updateTodoHandler (some "user-1") (some (some "todo-1")) .absent "T1"
      none [] =
      ⟨generateResponse 500 updateFailBody, [], 0⟩ :=
  c10_malformed_body_500 "user-1" "todo-1" "id-1" "T1" .absent none none []
    (by decide) (by decide) (Or.inl rfl)

/-- C7: for every update request that passes validation and reaches the store
call, a thrown store error whose name is ValidationException and whose
message contains the key-schema-mismatch text is answered 400 "Invalid
To-Do ID or data format."; a store error failing that test is answered with
the fixed generic 500 body `updateFailBody`, a constant carrying no text
from the underlying error; the store is unchanged either way. -/
theorem c7_store_error_classification (u i now : String)
    (fields : List (String × JSValue)) (store : Store) (e : JSError)
    (hu : u ≠ "") (hi : i ≠ "")
    (ht : updateTitleInvalid (lookupField (.obj fields) "title") = false)
    (hd : updateDescInvalid (lookupField (.obj fields) "description") = false)
    (hs : updateStatusInvalid (lookupField (.obj fields) "status") = false) :
    (isKeyMismatch e = true →
      (updateTodoHandler (some u) (some (some i)) (.val (.obj fields)) now
        (some e) store).response =
        generateResponse 400 (msgBody "Invalid To-Do ID or data format.")) ∧
    (isKeyMismatch e = false →
      (updateTodoHandler (some u) (some (some i)) (.val (.obj fields)) now
        (some e) store).response = generateResponse 500 updateFailBody) ∧
    (updateTodoHandler (some u) (some (some i)) (.val (.obj fields)) now
      (some e) store).store = store := by
  have hred : updateTodoHandler (some u) (some (some i)) (.val (.obj fields))
      now (some e) store = ⟨updateCatch e, store, 1⟩ := by
    simp [updateTodoHandler, parseBody, hu, hi, ht, hd, hs, updateSets,
      updateStorePhase]
  refine ⟨fun hk => by simp [hred, updateCatch, hk],
          fun hk => by simp [hred, updateCatch, hk],
          by simp [hred]⟩

theorem c7_store_error_classification_witness :
    (updateTodoHandler (some "user-1") (some (some "todo-1"))
      (.val (.obj [])) "T1"
      (some ⟨"ValidationException", keyMismatchNeedle⟩) []).response =
      generateResponse 400 (msgBody "Invalid To-Do ID or data format.") ∧
    (updateTodoHandler (some "user-1") (some (some "todo-1"))
      (.val (.obj [])) "T1"
      (some ⟨"SyntaxError", "backend exploded"⟩) []).response =
      generateResponse 500 updateFailBody :=
  ⟨(c7_store_error_classification "user-1" "todo-1" "T1" [] []
      ⟨"ValidationException", keyMismatchNeedle⟩ (by decide) (by decide)
      rfl rfl rfl).1 (by decide),
   (c7_store_error_classification "user-1" "todo-1" "T1" [] []
      ⟨"SyntaxError", "backend exploded"⟩ (by decide) (by decide)
      rfl rfl rfl).2.1 (by decide)⟩

/-- C4: a create request with a present owner, a title that is a string and
non-empty after trimming, a description absent or a string, and a
successful store write answers 201 with the created item: `status` is
pending, `createdAt` equals `updatedAt` (both `now`), `description` is the
given string or defaults to the empty string when absent, the key is the
claimed owner paired with the generated id, and the single issued store
operation writes exactly that item. -/
theorem c4_create_valid (u t freshId now : String) (descOpt : Option String)
    (fields : List (String × JSValue)) (store : Store)
    (hu : u ≠ "") (ht : jsTrim t ≠ "")
    (hTitle : lookupField (.obj fields) "title" = some (.str t))
    (hDesc : lookupField (.obj fields) "description" =
      descOpt.map JSValue.str) :
    createTodoHandler (some u) (.val (.obj fields)) freshId now none store =
      ⟨generateResponse 201
         (.obj [("message", .str "To-Do item created successfully."),
                ("todo",
                 .obj (createdItem u freshId t (descOpt.getD "") now))]),
       storeInsert store (u, freshId)
         (createdItem u freshId t (descOpt.getD "") now),
       1⟩ := by
  have ht0 : t ≠ "" := by intro h; subst h; exact ht rfl
  have h1 : createTitleInvalid (some (.str t)) = false := by
    simp [createTitleInvalid, ht0, ht]
  cases descOpt with
  | none =>
    simp only [Option.map_none'] at hDesc
    simp [createTodoHandler, parseBody, hTitle, hDesc, hu, h1,
      createDescInvalid, createdItem]
  | some d =>
    simp only [Option.map_some'] at hDesc
    by_cases hd : d = ""
    · subst hd
      simp [createTodoHandler, parseBody, hTitle, hDesc, hu, h1,
        createDescInvalid, createdItem, jsTruthy]
    · simp [createTodoHandler, parseBody, hTitle, hDesc, hu, h1,
        createDescInvalid, createdItem, jsTruthy, hd, JSValue.isString]

theorem c4_create_valid_witness :
    createTodoHandler (some "user-1")
      (.val (.obj [("title", .str "Buy milk")])) "id-1" "T0" none [] =
      ⟨generateResponse 201
         (.obj [("message", .str "To-Do item created successfully."),
                ("todo",
                 .obj (createdItem "user-1" "id-1" "Buy milk" "" "T0"))]),
       storeInsert [] ("user-1", "id-1")
         (createdItem "user-1" "id-1" "Buy milk" "" "T0"),
       1⟩ :=
  c4_create_valid "user-1" "Buy milk" "id-1" "T0" none
    [("title", .str "Buy milk")] [] (by decide) (by decide) rfl rfl

/-- C5 counterexample: a create request with a present owner and a valid
title whose description is JSON `null` — a present, non-string, falsy value
— is not rejected with 400: the validation guard only fires on truthy
values, so the handler answers 201 and issues the store write. -/
theorem c5_counterexample_falsy_description :
    (createTodoHandler (some "user-1")
      (.val (.obj [("title", .str "T"), ("description", .null)])) "id-1" "T0"
      none []).response.statusCode = 201 ∧
    (createTodoHandler (some "user-1")
      (.val (.obj [("title", .str "T"), ("description", .null)])) "id-1" "T0"
      none []).storeOps = 1 := ⟨rfl, rfl⟩

/-- C5 (amended): with a present owner and a valid title, a description field
holding a truthy non-string value is answered 400 with no store operation
issued; a falsy non-string description (null, 0, false) instead passes
validation and is defaulted to the empty string. -/
theorem c5_truthy_nonstring_description (u t freshId now : String)
    (dv : JSValue) (fields : List (String × JSValue))
    (putErr : Option JSError) (store : Store)
    (hu : u ≠ "") (ht : jsTrim t ≠ "")
    (hTitle : lookupField (.obj fields) "title" = some (.str t))
    (hDesc : lookupField (.obj fields) "description" = some dv)
    (hTruthy : jsTruthy dv = true) (hNotStr : dv.isString = false) :
    createTodoHandler (some u) (.val (.obj fields)) freshId now putErr store =
      ⟨generateResponse 400 (msgBody "Description must be a string."),
       store, 0⟩ := by
  have ht0 : t ≠ "" := by intro h; subst h; exact ht rfl
  have h1 : createTitleInvalid (some (.str t)) = false := by
    simp [createTitleInvalid, ht0, ht]
  have h2 : createDescInvalid (some dv) = true := by
    simp [createDescInvalid, hTruthy, hNotStr]
  simp [createTodoHandler, parseBody, hTitle, hDesc, hu, h1, h2]

theorem c5_truthy_nonstring_description_witness :
    createTodoHandler (some "user-1")
      (.val (.obj [("title", .str "T"), ("description", .num 5)])) "id-1"
      "T0" none [] =
      ⟨generateResponse 400 (msgBody "Description must be a string."),
       [], 0⟩ :=
  c5_truthy_nonstring_description "user-1" "T" "id-1" "T0" (.num 5)
    [("title", .str "T"), ("description", .num 5)] none [] (by decide)
    (by decide) rfl rfl (by decide) rfl
